import Mathlib

/-!
Verification development for the DAG-failure incident-response service
(webhook ingestion, deduplication, four-step remediation pipeline).

The definitions below are shallow embeddings of the Python sources:
  * `Utils.parse_slack_text`      — src/slack_handler/utils.py, lines 26-66
  * `ParseEvent.parse_slack_text` — src/parse_slack_event/slack_parser.py, lines 8-44
  * `Utils.load_existing_events`, `Utils.save_as_json`
                                  — src/slack_handler/utils.py, lines 9-23
  * `Events.handle_slack_event`   — src/slack_handler/events.py, lines 47-182
  * `App.verify_slack_signature`  — src/app.py, lines 176-199
  * `AgentHandler.dispatch_action` — src/agent_handler/agent.py, lines 96-100
  * `AgentSimple.dispatch_action`  — src/agent.py, lines 35-39
Text is modelled as Lean `String`/`List Char` (the ASCII fragment of Python
`str`); external collaborators (the LLM agent call, HMAC, REST calls, float
parsing) are modelled as explicit function parameters ("oracles").
-/

/-! ### Python string primitives -/

/-- The whitespace characters removed by Python `str.strip()` (ASCII fragment:
space, tab, newline, carriage return, vertical tab, form feed). -/
def pySpace (c : Char) : Bool :=
  c == ' ' || c == '\t' || c == '\n' || c == '\r' || c == '\x0b' || c == '\x0c'

/-- ASCII case folding, as performed by Python `str.lower()` on ASCII text. -/
def lowerChar : Char → Char
  | 'A' => 'a' | 'B' => 'b' | 'C' => 'c' | 'D' => 'd' | 'E' => 'e' | 'F' => 'f'
  | 'G' => 'g' | 'H' => 'h' | 'I' => 'i' | 'J' => 'j' | 'K' => 'k' | 'L' => 'l'
  | 'M' => 'm' | 'N' => 'n' | 'O' => 'o' | 'P' => 'p' | 'Q' => 'q' | 'R' => 'r'
  | 'S' => 's' | 'T' => 't' | 'U' => 'u' | 'V' => 'v' | 'W' => 'w' | 'X' => 'x'
  | 'Y' => 'y' | 'Z' => 'z'
  | c => c

/-- Python `str.strip()` on a character list: drop whitespace from both ends. -/
def pyStripL (l : List Char) : List Char :=
  ((l.dropWhile pySpace).reverse.dropWhile pySpace).reverse

/-- Python `str.lower()` on a character list. -/
def pyLowerL (l : List Char) : List Char := l.map lowerChar

/-- `startsWith pat l` : does `l` begin with `pat`?  (Python `str.startswith`.) -/
def startsWith : List Char → List Char → Bool
  | [], _ => true
  | _ :: _, [] => false
  | c :: w, d :: l => c == d && startsWith w l

/-- `hasSub pat l` : does `pat` occur as a contiguous substring of `l`?
(Python `pat in l`.) -/
def hasSub (w : List Char) : List Char → Bool
  | [] => startsWith w []
  | c :: rest => startsWith w (c :: rest) || hasSub w rest

/-- Python truthiness of an optional string: `None` and `""` are falsy. -/
def truthy : Option String → Bool
  | none => false
  | some s => !s.isEmpty

/-! ### A tiny model of the `re.search` captures used by the parsers

Every regex in the sources has the shape `LITERAL-OPENER (.*?) CLOSER`:
scan left to right for the first position where one of the literal openers
matches and a closing character follows before any newline (Python `.` does
not match `\n`), and capture the (lazy, hence shortest) text in between. -/

/-- Attempt the lazy capture `(.*?)close` at the current position: succeeds
iff `close` occurs in `l` before any `'\n'`. -/
def lazyCapture (close : Char) (l : List Char) : Option (List Char) :=
  let pre := l.takeWhile (fun c => c != close)
  if l.contains close && pre.all (fun c => c != '\n') then some pre else none

/-- `reSearchCapture openers close l` : leftmost match of
`(opener₁|opener₂|...)(.*?)close` in `l`, returning the captured group. -/
def reSearchCapture (openers : List (List Char)) (close : Char) :
    List Char → Option (List Char)
  | [] => none
  | c :: rest =>
    match openers.findSome? (fun op =>
        if startsWith op (c :: rest) then
          lazyCapture close ((c :: rest).drop op.length)
        else none) with
    | some cap => some cap
    | none => reSearchCapture openers close rest

/-! ### Incident Extractor, variant 1: src/slack_handler/utils.py -/

namespace Utils

/-- The dictionary returned by `parse_slack_text` in src/slack_handler/utils.py
(lines 55-62).  `status` is `none` when neither keyword is found (Python
`None`). -/
structure TextDetails where
  dag_name : Option String
  run_id : Option String
  run_date : Option String
  status : Option String
  log_url : Option String
  full_text : String
  deriving Repr, DecidableEq

/-- src/slack_handler/utils.py lines 26-66.  The regexes are
`(?:DAG:|DAG) \*(.*?)\*`, `Run ID: \*(.*?)\*`, `Run Date: \*(.*?)\*`,
`\*Log URL:\* <(.*?)>`; the status is a substring check on the stripped,
lower-cased text.  Total for string input (the `except` branch of the source
is unreachable when `text` is a `str`). -/
def parse_slack_text (text : String) : TextDetails :=
  let cleaned := pyStripL text.toList
  let dag_name := (reSearchCapture ["DAG: *".toList, "DAG *".toList] '*' cleaned).map
    (fun l => String.mk l)
  let run_id := (reSearchCapture ["Run ID: *".toList] '*' cleaned).map
    (fun l => String.mk l)
  let run_date := (reSearchCapture ["Run Date: *".toList] '*' cleaned).map
    (fun l => String.mk l)
  let lowered := pyLowerL cleaned
  let status : Option String :=
    if hasSub "failed".toList lowered then some "failed"
    else if hasSub "success".toList lowered || hasSub "succeeded".toList lowered then
      some "success"
    else none
  let log_url := (reSearchCapture ["*Log URL:* <".toList] '>' cleaned).map
    (fun l => String.mk l)
  { dag_name := dag_name, run_id := run_id, run_date := run_date,
    status := status, log_url := log_url, full_text := text }

end Utils

/-! ### Incident Extractor, variant 2: src/parse_slack_event/slack_parser.py -/

namespace ParseEvent

/-- The dictionary returned by `parse_slack_text` in
src/parse_slack_event/slack_parser.py (lines 34-40).  `status` here is always
set, defaulting to `"unknown"`. -/
structure TextDetails where
  dag_name : Option String
  run_id : Option String
  run_date : Option String
  status : String
  full_text : String
  deriving Repr, DecidableEq

/-- src/parse_slack_event/slack_parser.py lines 8-44.  Identical to the
utils variant except: the DAG regex is `DAG \*(.*?)\*` (no `DAG:`
alternative), there is no log-URL field, and the status defaults to
`"unknown"`. -/
def parse_slack_text (text : String) : TextDetails :=
  let cleaned := pyStripL text.toList
  let dag_name := (reSearchCapture ["DAG *".toList] '*' cleaned).map
    (fun l => String.mk l)
  let run_id := (reSearchCapture ["Run ID: *".toList] '*' cleaned).map
    (fun l => String.mk l)
  let run_date := (reSearchCapture ["Run Date: *".toList] '*' cleaned).map
    (fun l => String.mk l)
  let lowered := pyLowerL cleaned
  let status : String :=
    if hasSub "failed".toList lowered then "failed"
    else if hasSub "success".toList lowered || hasSub "succeeded".toList lowered then
      "success"
    else "unknown"
  { dag_name := dag_name, run_id := run_id, run_date := run_date,
    status := status, full_text := text }

end ParseEvent

/-! ### Audit Log Store: src/slack_handler/utils.py lines 9-23

A persisted JSON log is modelled as `FileState α`:
`none` = the file does not exist; `some none` = the file exists but is not
parsable JSON of the expected shape; `some (some l)` = the file parses to the
sequence `l` (newest record first). -/

/-- State of one persisted JSON log file. -/
abbrev FileState (α : Type) : Type := Option (Option (List α))

namespace Utils

/-- Python `json.load` on an existing file: raises (here: `Except.error`) when
the contents are unparsable. -/
def js_load {α : Type} : Option (List α) → Except String (List α)
  | none => Except.error "JSONDecodeError"
  | some l => Except.ok l

/-- Writing the whole sequence back (`open(filename, "w")` + `json.dump`):
raises when the write fails. -/
def fs_write {α : Type} (writeOk : Bool) (data : List α) :
    Except String (FileState α) :=
  if writeOk then Except.ok (some (some data)) else Except.error "IOError"

/-- src/slack_handler/utils.py lines 9-16: if the file exists, try to parse
it, logging and falling through to `[]` on any exception; if it does not
exist, return `[]`. -/
def load_existing_events {α : Type} : FileState α → List α
  | none => []
  | some contents =>
    match js_load contents with
    | Except.ok l => l
    | Except.error _ => []

/-- src/slack_handler/utils.py lines 18-23: attempt the write; on an
exception only log (the store keeps its previous state, the caller never
sees the failure). -/
def save_as_json {α : Type} (writeOk : Bool) (data : List α) (fs : FileState α) :
    FileState α :=
  match fs_write writeOk data with
  | Except.ok fs' => fs'
  | Except.error _ => fs

/-- The append pattern used at src/slack_handler/events.py lines 103-105 and
165-167: load the sequence, insert the new record at index 0, persist the
whole sequence back. -/
def appendRecord {α : Type} (writeOk : Bool) (record : α) (fs : FileState α) :
    FileState α :=
  save_as_json writeOk (record :: load_existing_events fs) fs

end Utils

/-! ### Webhook handler: src/slack_handler/events.py lines 47-182

We model the `event["type"] == "message"` branch of `handle_slack_event`.
Signature verification (line 30), JSON-envelope decoding (lines 33-39) and
non-message events (line 182) happen before/around this branch and are out of
scope here; `verify_slack_signature` is modelled separately below.

The four `agent(...)` calls are modelled by an oracle
`agent : String → Except String String` mapping the exact prompt string to
either a returned string or a raised exception (rendered as its message).
File writes inside the handler are modelled as succeeding
(`save_as_json true`). -/

namespace Events

/-- Per-request ambient data: the two `uuid.uuid4()` draws and
`datetime.now(...)` (lines 52, 57, 156), plus the Slack fields copied from
the event (lines 48-51). -/
structure RequestCtx where
  msgId : String
  agentId : String
  timestamp : String
  user : String
  channel : String
  subtype : String
  deriving Repr, DecidableEq

/-- `message_data` built at src/slack_handler/events.py lines 56-63. -/
structure MessageData where
  id : String
  user : String
  channel : String
  timestamp : String
  subtype : String
  text_details : Utils.TextDetails
  deriving Repr, DecidableEq

/-- The duplicate test of src/slack_handler/events.py lines 76-80: a stored
event counts as a duplicate of the incoming one when its `text_details`
carry the same `dag_name` and the same `run_date`. -/
def sameKey (parsed : Utils.TextDetails) (ev : MessageData) : Bool :=
  (ev.text_details.dag_name == parsed.dag_name) &&
    (ev.text_details.run_date == parsed.run_date)

/-- Lines 56-63: assemble `message_data` from the request context and the
parsed text. -/
def mkMessage (ctx : RequestCtx) (parsed : Utils.TextDetails) : MessageData :=
  { id := ctx.msgId, user := ctx.user, channel := ctx.channel,
    timestamp := ctx.timestamp, subtype := ctx.subtype, text_details := parsed }

/-- `agent_response_data` built at src/slack_handler/events.py lines 155-163
— the persisted record of one WorkflowRun. -/
structure AgentResponseData where
  id : String
  dag_name : String
  timestamp : String
  dag_details : String
  logs : String
  analysis : String
  slack_message_result : String
  deriving Repr, DecidableEq

/-- The two persisted stores (`SLACK_RESPONSE_FILE`, `AGENT_RESPONSE_FILE`). -/
structure ServerState where
  slackFile : FileState MessageData
  agentFile : FileState AgentResponseData
  deriving Repr, DecidableEq

/-- Outcome of one request to the message branch of the handler.
`ok` = line 180 `{"status": "ok"}`; `dup` = lines 86-91; `triggered` =
lines 169-178; `pyError` = an exception escaping the handler (the framework
turns it into a 500 response). -/
inductive HandlerOutcome where
  | ok : HandlerOutcome
  | dup : String → String → HandlerOutcome
  | triggered : String → String → String → String → String → HandlerOutcome
  | pyError : String → HandlerOutcome
  deriving Repr, DecidableEq

/-- Is this outcome the duplicate-event response (lines 86-91)? -/
def isDupOutcome : HandlerOutcome → Bool
  | HandlerOutcome.dup _ _ => true
  | _ => false

/-- Prompt of the fetch-details step (line 117). -/
def promptDetails (dag : String) : String :=
  "Use the DAG Details Fetching Tool to get information for the DAG named \x27"
    ++ dag ++ "\x27."

/-- Prompt of the fetch-logs step (line 132). -/
def promptLogs (dag : String) : String :=
  "Use the Log Fetching Tool to get logs for the DAG \x27" ++ dag ++ "\x27."

/-- Prompt of the analysis step (line 139). -/
def promptAnalyze (dag logs : String) : String :=
  "Use the Log Analysis Tool. Analyze these logs for DAG \x27" ++ dag
    ++ "\x27 and give a summary: " ++ logs

/-- Prompt of the notification step (line 146). -/
def promptNotify (dag analysis : String) : String :=
  "Send a Slack message about an error in DAG \x27" ++ dag
    ++ "\x27. Use this analysis: " ++ analysis

/-- The agent-trigger block, src/slack_handler/events.py lines 111-178.
All four awaited `agent` calls sit in one `try`; the `except` (lines
149-153) assigns error text to `logs`, `analysis` and
`slack_message_result` but NOT to `dag_details`, so if the first call
raises, line 159 reads the unassigned local `dag_details` and the handler
itself raises `UnboundLocalError`. -/
def agentTrigger (agent : String → Except String String) (ctx : RequestCtx)
    (dag : String) (st : ServerState) : HandlerOutcome × ServerState :=
  match agent (promptDetails dag) with
  | Except.error _ =>
    -- except: logs/analysis/slack_message_result get error text (lines
    -- 151-153), but dag_details was never assigned; line 159 raises.
    (HandlerOutcome.pyError "UnboundLocalError: dag_details", st)
  | Except.ok dag_details =>
    let stepResults : String × String × String :=
      match agent (promptLogs dag) with
      | Except.error e =>
        ("Error fetching logs: " ++ e, "Error analyzing logs: " ++ e,
         "Error sending message to Slack: " ++ e)
      | Except.ok logs =>
        match agent (promptAnalyze dag logs) with
        | Except.error e =>
          ("Error fetching logs: " ++ e, "Error analyzing logs: " ++ e,
           "Error sending message to Slack: " ++ e)
        | Except.ok analysis =>
          match agent (promptNotify dag analysis) with
          | Except.error e =>
            ("Error fetching logs: " ++ e, "Error analyzing logs: " ++ e,
             "Error sending message to Slack: " ++ e)
          | Except.ok slack_message_result => (logs, analysis, slack_message_result)
    let logs := stepResults.1
    let analysis := stepResults.2.1
    let slack_message_result := stepResults.2.2
    let agent_response_data : AgentResponseData :=
      { id := ctx.agentId, dag_name := dag, timestamp := ctx.timestamp,
        dag_details := dag_details, logs := logs, analysis := analysis,
        slack_message_result := slack_message_result }
    let st' : ServerState :=
      { st with agentFile := Utils.appendRecord true agent_response_data st.agentFile }
    (HandlerOutcome.triggered ("Fetched logs and analysis for " ++ dag)
        dag_details logs analysis slack_message_result, st')

/-- src/slack_handler/events.py lines 47-180, the message branch.
Lines 74-91: when both `dag_name` and `run_date` are truthy, scan the
persisted event log for an entry with the same pair; a hit returns the
duplicate response without saving anything.  Lines 103-105: otherwise the
message is prepended to the event log.  Line 108: the agent pipeline runs
only when the parsed status is `"failed"` and `dag_name` is truthy. -/
def handle_slack_event (agent : String → Except String String)
    (ctx : RequestCtx) (text : String) (st : ServerState) :
    HandlerOutcome × ServerState :=
  let parsed := Utils.parse_slack_text text
  let message_data : MessageData := mkMessage ctx parsed
  let dag_name := parsed.dag_name
  let run_date := parsed.run_date
  let is_duplicate :=
    truthy dag_name && truthy run_date &&
      (Utils.load_existing_events st.slackFile).any (sameKey parsed)
  if is_duplicate then
    (HandlerOutcome.dup "ok" "Duplicate event.  No action taken.", st)
  else
    let st1 : ServerState :=
      { st with slackFile := Utils.appendRecord true message_data st.slackFile }
    if parsed.status == some "failed" && truthy dag_name then
      agentTrigger agent ctx (dag_name.getD "") st1
    else
      (HandlerOutcome.ok, st1)

/-- Iterated submission of the same message text (one handler call per
element of `ctxs`). -/
def runAll (agent : String → Except String String) (text : String) :
    List RequestCtx → ServerState → ServerState
  | [], st => st
  | c :: cs, st => runAll agent text cs (handle_slack_event agent c text st).2

end Events

/-! ### Signature Verifier: src/app.py lines 176-199

External pieces are parameters: `parseFloat` models Python `float(...)`
on the timestamp header (partial; finite values only, so timestamps are
rationals), `hmacHex` models `hmac.new(secret, msg, sha256).hexdigest()`.
`hmac.compare_digest` returns the same boolean as string equality (its
constant-time execution is a timing property outside this model). -/

namespace App

/-- The two headers read at src/app.py lines 177-178 (`X-Slack-Signature`,
`X-Slack-Request-Timestamp`), each possibly absent. -/
structure SlackHeaders where
  signature : Option String
  timestamp : Option String
  deriving Repr, DecidableEq

/-- Python `int()` on a float/rational: truncation toward zero. -/
def pyInt (q : ℚ) : ℤ := if 0 ≤ q then ⌊q⌋ else ⌈q⌉

/-- src/app.py lines 176-199: reject on a missing header, an unparsable
timestamp, or `|now − timestamp| > 60*5`; otherwise compare the supplied
signature with `"v0=" + hex(HMAC-SHA256(secret, "v0:" + int(ts) + ":" + body))`. -/
def verify_slack_signature (parseFloat : String → Option ℚ)
    (hmacHex : String → String → String) (secret : String) (now : ℚ)
    (headers : SlackHeaders) (body : String) : Bool :=
  match headers.signature, headers.timestamp with
  | some slack_signature, some tsHeader =>
    match parseFloat tsHeader with
    | none => false
    | some slack_timestamp =>
      if |now - slack_timestamp| > 60 * 5 then false
      else
        let sig_basestring :=
          "v0:" ++ toString (pyInt slack_timestamp) ++ ":" ++ body
        let my_signature := "v0=" ++ hmacHex secret sig_basestring
        my_signature == slack_signature
  | _, _ => false

end App

/-! ### Action Dispatcher, variant 1: src/agent_handler/agent.py lines 86-100 -/

namespace AgentHandler

/-- The external effects reached through the six registered handlers
(REST calls, the LLM, the Slack webhook, the details-file write), one
function per handler class of src/agent_handler/agent.py. -/
structure Capabilities where
  fetch_dag_details : String → String
  fetch_logs_for_dag : String → String
  analyze_logs_llm : String → String
  send_to_slack : String → String
  save_dag_details : String → String

/-- src/agent_handler/agent.py lines 96-100: read `action` (default
`"answer"`) and `argument` (default `""`) from the parsed JSON, look the
action up in `ACTION_REGISTRY`, and fall back to a fresh `AnswerAction`
(which returns its argument unchanged) when absent. -/
def dispatch_action (cap : Capabilities)
    (action argument : Option String) : String :=
  let action_type := action.getD "answer"
  let arg := argument.getD ""
  if action_type = "fetch_dag_details" then
    cap.fetch_dag_details (String.mk (pyStripL arg.toList))
  else if action_type = "fetch_logs" then
    cap.fetch_logs_for_dag (String.mk (pyStripL arg.toList))
  else if action_type = "analyze_logs" then cap.analyze_logs_llm arg
  else if action_type = "answer" then arg
  else if action_type = "send_to_slack" then cap.send_to_slack arg
  else if action_type = "save_dag_details" then cap.save_dag_details arg
  else arg

end AgentHandler

/-! ### Action Dispatcher, variant 2: src/agent.py lines 29-39 -/

namespace AgentSimple

/-- External effects of the three registered handlers of src/agent.py:
`fetch_dags` takes no argument (`ListDagsAction.run` ignores it). -/
structure Capabilities where
  fetch_dags : String
  fetch_logs_for_dag : String → String

/-- src/agent.py lines 35-39: same dispatch shape over the registry
`list_dags` / `fetch_logs` / `answer`. -/
def dispatch_action (cap : Capabilities)
    (action argument : Option String) : String :=
  let action_type := action.getD "answer"
  let arg := argument.getD ""
  if action_type = "list_dags" then cap.fetch_dags
  else if action_type = "fetch_logs" then
    cap.fetch_logs_for_dag (String.mk (pyStripL arg.toList))
  else if action_type = "answer" then arg
  else arg

end AgentSimple

/-! ### Interleaving model of the deduplication gate

One delivery of a message executes, against the shared persisted event log,
first a READ step (src/slack_handler/events.py lines 75-80: load the log and
test membership of the (dag_name, run_date) key) and later a separate WRITE
step (lines 103-105: load, prepend, save).  Here each of the two steps is a
single atomic transition (collapsing load+test and load+insert+save each
into one step — coarser atomicity than the real file operations, which only
strengthens the code); a thread whose READ finds the key stops as a
duplicate and never writes. -/

namespace Race

/-- Program counter of one delivery thread: `0` = before the read/check,
`1` = passed the gate, write still pending, `2` = wrote and returned
(processing was triggered), `3` = returned as duplicate. -/
structure RaceState where
  store : List Events.MessageData
  pcA : Nat
  pcB : Nat
  deriving Repr, DecidableEq

/-- The membership test of src/slack_handler/events.py lines 74-80 for the
key of `md` (skipped — never a duplicate — unless both fields are truthy). -/
def dupCheck (md : Events.MessageData) (store : List Events.MessageData) : Bool :=
  truthy md.text_details.dag_name && truthy md.text_details.run_date &&
    store.any (Events.sameKey md.text_details)

/-- Advance one thread (`tid = false` is A, `true` is B) by one atomic step. -/
def step (mdA mdB : Events.MessageData) (s : RaceState) (tid : Bool) : RaceState :=
  if tid then
    if s.pcB = 0 then
      if dupCheck mdB s.store then { s with pcB := 3 } else { s with pcB := 1 }
    else if s.pcB = 1 then { s with store := mdB :: s.store, pcB := 2 }
    else s
  else
    if s.pcA = 0 then
      if dupCheck mdA s.store then { s with pcA := 3 } else { s with pcA := 1 }
    else if s.pcA = 1 then { s with store := mdA :: s.store, pcA := 2 }
    else s

/-- Run a schedule (a list of thread ids) from a state. -/
def run (mdA mdB : Events.MessageData) : List Bool → RaceState → RaceState
  | [], s => s
  | t :: ts, s => run mdA mdB ts (step mdA mdB s t)

end Race

/-! ### Concrete test fixtures (used by the closed evaluation theorems) -/

/-- The Airflow alert text from the end-to-end scenario in the project
description. -/
def failedText : String := "DAG *my_pipeline* failed! Run Date: *2024-01-01*"

/-- A failure alert whose text carries no run date. -/
def noDateText : String := "DAG *x_pipeline* failed!"

/-- An agent oracle whose every call raises (e.g. the LLM backend is
unreachable). -/
def failAgent : String → Except String String :=
  fun _ => Except.error "connection refused"

/-- An agent oracle whose every call returns normally. -/
def okAgent : String → Except String String := fun _ => Except.ok "ok-result"

/-- Request contexts for a first and a second delivery of the same text. -/
def ctx0 : Events.RequestCtx :=
  { msgId := "m0", agentId := "a0", timestamp := "t0", user := "u", channel := "c",
    subtype := "user" }

/-- Second delivery context. -/
def ctx1 : Events.RequestCtx :=
  { msgId := "m1", agentId := "a1", timestamp := "t1", user := "u", channel := "c",
    subtype := "user" }

/-- Fresh server state: neither log file exists yet. -/
def emptyState : Events.ServerState := { slackFile := none, agentFile := none }

/-- A concrete float parser for instantiating the signature-verifier
theorem: parses only the literal `"400"`. -/
def parseFloat400 : String → Option ℚ :=
  fun s => if s = "400" then some 400 else none

/-- A concrete HMAC stand-in for instantiating the signature-verifier
theorem. -/
def hmacConst : String → String → String := fun _ _ => "deadbeef"

/-- An agent oracle that answers the details prompt for `my_pipeline` and
raises on every other call. -/
def failAfterDetails : String → Except String String := fun p =>
  if p = Events.promptDetails "my_pipeline" then Except.ok "details"
  else Except.error "boom"

/-- Server state after one delivery of the date-less failure alert. -/
def st1C4 : Events.ServerState :=
  (Events.handle_slack_event okAgent ctx0 noDateText emptyState).2

/-- First delivery of the end-to-end alert, as stored in the event log. -/
def raceMdA : Events.MessageData :=
  Events.mkMessage ctx0 (Utils.parse_slack_text failedText)

/-- Concurrent second delivery of the same alert. -/
def raceMdB : Events.MessageData :=
  Events.mkMessage ctx1 (Utils.parse_slack_text failedText)

/-- Concrete capability instances for the six-handler registry. -/
def capSix : AgentHandler.Capabilities :=
  { fetch_dag_details := fun s => "details:" ++ s,
    fetch_logs_for_dag := fun s => "logs:" ++ s,
    analyze_logs_llm := fun s => "analysis:" ++ s,
    send_to_slack := fun s => "sent:" ++ s,
    save_dag_details := fun s => "saved:" ++ s }

/-- Concrete capability instances for the three-handler registry. -/
def capThree : AgentSimple.Capabilities :=
  { fetch_dags := "dags", fetch_logs_for_dag := fun s => "logs:" ++ s }

/-! ## Sanity checks: the extractor on the end-to-end scenario text -/

example :
    (Utils.parse_slack_text "DAG *my_pipeline* failed! Run Date: *2024-01-01*").dag_name
      = some "my_pipeline" := by decide

example :
    (Utils.parse_slack_text "DAG *my_pipeline* failed! Run Date: *2024-01-01*").run_date
      = some "2024-01-01" := by decide

example :
    (Utils.parse_slack_text "DAG *my_pipeline* failed! Run Date: *2024-01-01*").status
      = some "failed" := by decide

example : (Utils.parse_slack_text "hello").status = none := by decide

example : (ParseEvent.parse_slack_text "hello").status = "unknown" := by decide

/-! ## Lemmas about the string primitives -/

theorem startsWith_iff (w l : List Char) :
    startsWith w l = true ↔ ∃ t, l = w ++ t := by
  induction w generalizing l with
  | nil => simp [startsWith]
  | cons c w ih =>
    cases l with
    | nil => simp [startsWith]
    | cons d l =>
      simp only [startsWith, Bool.and_eq_true, beq_iff_eq, ih, List.cons_append,
        List.cons.injEq]
      constructor
      · rintro ⟨rfl, t, rfl⟩
        exact ⟨t, rfl, rfl⟩
      · rintro ⟨t, rfl, rfl⟩
        exact ⟨rfl, t, rfl⟩

theorem hasSub_iff (w l : List Char) :
    hasSub w l = true ↔ ∃ s t, l = s ++ w ++ t := by
  induction l with
  | nil =>
    simp only [hasSub, startsWith_iff]
    constructor
    · rintro ⟨t, h⟩
      exact ⟨[], t, by simpa using h⟩
    · rintro ⟨s, t, h⟩
      have h2 : s ++ w ++ t = [] := h.symm
      simp only [List.append_eq_nil] at h2
      exact ⟨t, by rw [h2.1.2]; simp [h2.2]⟩
  | cons c l ih =>
    simp only [hasSub, Bool.or_eq_true, startsWith_iff, ih]
    constructor
    · rintro (⟨t, h⟩ | ⟨s, t, h⟩)
      · exact ⟨[], t, by simpa using h⟩
      · exact ⟨c :: s, t, by simp [h]⟩
    · rintro ⟨s, t, h⟩
      cases s with
      | nil => exact Or.inl ⟨t, by simpa using h⟩
      | cons a s =>
        simp only [List.cons_append, List.cons.injEq] at h
        exact Or.inr ⟨s, t, h.2⟩

theorem hasSub_of_decomp (w s x t : List Char) (h : hasSub w x = true) :
    hasSub w (s ++ x ++ t) = true := by
  rcases (hasSub_iff w x).1 h with ⟨a, b, rfl⟩
  exact (hasSub_iff w _).2 ⟨s ++ a, b ++ t, by simp⟩

theorem dropWhile_decomp (p : Char → Bool) (l : List Char) :
    ∃ s, l = s ++ l.dropWhile p := by
  induction l with
  | nil => exact ⟨[], rfl⟩
  | cons c l ih =>
    by_cases h : p c
    · rcases ih with ⟨s, hs⟩
      exact ⟨c :: s, by simpa [List.dropWhile, h] using congrArg (c :: ·) hs⟩
    · exact ⟨[], by simp [List.dropWhile, h]⟩

theorem pyStripL_decomp (l : List Char) : ∃ s t, l = s ++ pyStripL l ++ t := by
  rcases dropWhile_decomp pySpace l with ⟨s, hs⟩
  rcases dropWhile_decomp pySpace (l.dropWhile pySpace).reverse with ⟨s₂, hs₂⟩
  refine ⟨s, s₂.reverse, ?_⟩
  have h3 : l.dropWhile pySpace = pyStripL l ++ s₂.reverse := by
    have := congrArg List.reverse hs₂
    simpa [pyStripL, List.reverse_append] using this
  conv_lhs => rw [hs, h3]
  simp [List.append_assoc]

theorem hasSub_dropWhile (p : Char → Bool) (w : List Char) (hw : w ≠ [])
    (hc : ∀ c ∈ w, p c = false) :
    ∀ s t : List Char, hasSub w (List.dropWhile p (s ++ w ++ t)) = true := by
  intro s
  induction s with
  | nil =>
    intro t
    cases w with
    | nil => exact absurd rfl hw
    | cons c w =>
      have hpc : p c = false := hc c (List.mem_cons_self c w)
      simp only [List.nil_append, List.cons_append, List.dropWhile_cons, hpc,
        Bool.false_eq_true, if_false]
      exact (hasSub_iff _ _).2 ⟨[], t, by simp⟩
  | cons a s ih =>
    intro t
    by_cases h : p a
    · simpa [List.dropWhile_cons, h] using ih t
    · simp only [List.cons_append, List.dropWhile_cons, h, Bool.false_eq_true,
        if_false]
      exact (hasSub_iff _ _).2 ⟨a :: s, t, by simp⟩

theorem hasSub_reverse_iff (w l : List Char) :
    hasSub w.reverse l.reverse = true ↔ hasSub w l = true := by
  simp only [hasSub_iff]
  constructor
  · rintro ⟨s, t, h⟩
    refine ⟨t.reverse, s.reverse, ?_⟩
    have := congrArg List.reverse h
    simpa [List.reverse_append, List.append_assoc] using this
  · rintro ⟨s, t, rfl⟩
    exact ⟨t.reverse, s.reverse, by simp [List.reverse_append, List.append_assoc]⟩

theorem hasSub_pyStripL (w l : List Char) (hw : w ≠ [])
    (hc : ∀ c ∈ w, pySpace c = false) (h : hasSub w l = true) :
    hasSub w (pyStripL l) = true := by
  rcases (hasSub_iff w l).1 h with ⟨s, t, rfl⟩
  have h1 : hasSub w (List.dropWhile pySpace (s ++ w ++ t)) = true :=
    hasSub_dropWhile pySpace w hw hc s t
  have h2 : hasSub w.reverse (List.dropWhile pySpace (s ++ w ++ t)).reverse = true :=
    (hasSub_reverse_iff w _).2 h1
  have hw' : w.reverse ≠ [] := by simpa using hw
  have hc' : ∀ c ∈ w.reverse, pySpace c = false := by
    intro c hcmem
    exact hc c (List.mem_reverse.1 hcmem)
  rcases (hasSub_iff _ _).1 h2 with ⟨s', t', hst⟩
  have h3 :
      hasSub w.reverse
        (List.dropWhile pySpace (List.dropWhile pySpace (s ++ w ++ t)).reverse)
        = true := by
    rw [hst]
    exact hasSub_dropWhile pySpace w.reverse hw' hc' s' t'
  have h4 := (hasSub_reverse_iff w.reverse _).2 h3
  rw [List.reverse_reverse] at h4
  exact h4

theorem hasSub_of_pyStripL (w l : List Char)
    (h : hasSub w (pyStripL l) = true) : hasSub w l = true := by
  rcases pyStripL_decomp l with ⟨s, t, hl⟩
  rw [hl]
  exact hasSub_of_decomp w s (pyStripL l) t h

theorem pySpace_lowerChar (c : Char) : pySpace (lowerChar c) = pySpace c := by
  unfold lowerChar
  split <;> rfl

theorem pyLowerL_dropWhile (l : List Char) :
    pyLowerL (l.dropWhile pySpace) = (pyLowerL l).dropWhile pySpace := by
  induction l with
  | nil => rfl
  | cons c l ih =>
    by_cases h : pySpace c
    · have h' : pySpace (lowerChar c) = true := by rw [pySpace_lowerChar]; exact h
      simp [pyLowerL, List.dropWhile_cons, h, h'] at ih ⊢
      exact ih
    · have h' : pySpace (lowerChar c) = false := by
        rw [pySpace_lowerChar]; exact Bool.not_eq_true _ ▸ by simpa using h
      simp [pyLowerL, List.dropWhile_cons, h, h']

theorem pyLowerL_reverse (l : List Char) :
    pyLowerL l.reverse = (pyLowerL l).reverse := by
  simp [pyLowerL, List.map_reverse]

theorem pyLowerL_pyStripL (l : List Char) :
    pyLowerL (pyStripL l) = pyStripL (pyLowerL l) := by
  unfold pyStripL
  rw [pyLowerL_reverse, pyLowerL_dropWhile, pyLowerL_reverse, pyLowerL_dropWhile]

/-! ## Lemmas about the webhook handler -/

theorem sameKey_mkMessage (ctx : Events.RequestCtx) (p : Utils.TextDetails) :
    Events.sameKey p (Events.mkMessage ctx p) = true := by
  simp [Events.sameKey, Events.mkMessage]

theorem agentTrigger_slackFile (agent : String → Except String String)
    (ctx : Events.RequestCtx) (dag : String) (st : Events.ServerState) :
    (Events.agentTrigger agent ctx dag st).2.slackFile = st.slackFile := by
  unfold Events.agentTrigger
  cases agent (Events.promptDetails dag) with
  | error e => rfl
  | ok d =>
    cases agent (Events.promptLogs dag) with
    | error e => rfl
    | ok logs =>
      cases agent (Events.promptAnalyze dag logs) with
      | error e => rfl
      | ok analysis =>
        cases agent (Events.promptNotify dag analysis) <;> rfl

theorem agentTrigger_not_dup (agent : String → Except String String)
    (ctx : Events.RequestCtx) (dag : String) (st : Events.ServerState) :
    Events.isDupOutcome (Events.agentTrigger agent ctx dag st).1 = false := by
  unfold Events.agentTrigger
  cases agent (Events.promptDetails dag) with
  | error e => rfl
  | ok d =>
    cases agent (Events.promptLogs dag) with
    | error e => rfl
    | ok logs =>
      cases agent (Events.promptAnalyze dag logs) with
      | error e => rfl
      | ok analysis =>
        cases agent (Events.promptNotify dag analysis) <;> rfl

theorem handle_slack_event_dup (agent : String → Except String String)
    (ctx : Events.RequestCtx) (text : String) (st : Events.ServerState)
    (hd : truthy (Utils.parse_slack_text text).dag_name = true)
    (hr : truthy (Utils.parse_slack_text text).run_date = true)
    (hmem : (Utils.load_existing_events st.slackFile).any
      (Events.sameKey (Utils.parse_slack_text text)) = true) :
    Events.handle_slack_event agent ctx text st =
      (Events.HandlerOutcome.dup "ok" "Duplicate event.  No action taken.", st) := by
  simp [Events.handle_slack_event, hd, hr, hmem]

theorem handle_slack_event_first (agent : String → Except String String)
    (ctx : Events.RequestCtx) (text : String) (st : Events.ServerState)
    (hd : truthy (Utils.parse_slack_text text).dag_name = true)
    (hfail : (Utils.parse_slack_text text).status = some "failed")
    (hnomem : (Utils.load_existing_events st.slackFile).any
      (Events.sameKey (Utils.parse_slack_text text)) = false)
    (d : String)
    (hok : agent (Events.promptDetails
      ((Utils.parse_slack_text text).dag_name.getD "")) = Except.ok d) :
    ∃ r, (Events.handle_slack_event agent ctx text st).2 =
      { slackFile := some (some (Events.mkMessage ctx (Utils.parse_slack_text text)
          :: Utils.load_existing_events st.slackFile)),
        agentFile := some (some (r :: Utils.load_existing_events st.agentFile)) } := by
  simp only [Events.handle_slack_event, hnomem, Bool.and_false, Bool.false_eq_true,
    if_false, hfail, hd, Bool.and_true, beq_self_eq_true, Bool.true_and, if_true,
    Bool.and_self, and_self]
  unfold Events.agentTrigger
  rw [hok]
  cases agent (Events.promptLogs ((Utils.parse_slack_text text).dag_name.getD "")) with
  | error e => exact ⟨_, rfl⟩
  | ok logs =>
    cases agent (Events.promptAnalyze
        ((Utils.parse_slack_text text).dag_name.getD "") logs) with
    | error e => exact ⟨_, rfl⟩
    | ok analysis =>
      cases agent (Events.promptNotify
          ((Utils.parse_slack_text text).dag_name.getD "") analysis) with
      | error e => exact ⟨_, rfl⟩
      | ok slackRes => exact ⟨_, rfl⟩

theorem handle_slack_event_not_dup_state (agent : String → Except String String)
    (ctx : Events.RequestCtx) (text : String) (st : Events.ServerState)
    (hcond : (truthy (Utils.parse_slack_text text).dag_name &&
      truthy (Utils.parse_slack_text text).run_date &&
      (Utils.load_existing_events st.slackFile).any
        (Events.sameKey (Utils.parse_slack_text text))) = false) :
    Utils.load_existing_events
        (Events.handle_slack_event agent ctx text st).2.slackFile
      = Events.mkMessage ctx (Utils.parse_slack_text text)
          :: Utils.load_existing_events st.slackFile ∧
    Events.isDupOutcome (Events.handle_slack_event agent ctx text st).1 = false := by
  simp only [Events.handle_slack_event, hcond, Bool.false_eq_true, if_false]
  by_cases hc2 : ((Utils.parse_slack_text text).status == some "failed" &&
      truthy (Utils.parse_slack_text text).dag_name) = true
  · rw [if_pos hc2]
    constructor
    · rw [agentTrigger_slackFile]; rfl
    · exact agentTrigger_not_dup agent ctx _ _
  · rw [if_neg hc2]
    exact ⟨rfl, rfl⟩

theorem runAll_fixed (agent : String → Except String String) (text : String)
    (cs : List Events.RequestCtx) (st : Events.ServerState)
    (hd : truthy (Utils.parse_slack_text text).dag_name = true)
    (hr : truthy (Utils.parse_slack_text text).run_date = true)
    (hmem : (Utils.load_existing_events st.slackFile).any
      (Events.sameKey (Utils.parse_slack_text text)) = true) :
    Events.runAll agent text cs st = st := by
  induction cs with
  | nil => rfl
  | cons c cs ih =>
    unfold Events.runAll
    rw [handle_slack_event_dup agent c text st hd hr hmem]
    exact ih

theorem utils_status_eq (text : String) :
    (Utils.parse_slack_text text).status =
      if hasSub "failed".toList (pyLowerL (pyStripL text.toList)) = true
      then some "failed"
      else if (hasSub "success".toList (pyLowerL (pyStripL text.toList))
            || hasSub "succeeded".toList (pyLowerL (pyStripL text.toList))) = true
      then some "success" else none := rfl

theorem parseev_status_eq (text : String) :
    (ParseEvent.parse_slack_text text).status =
      if hasSub "failed".toList (pyLowerL (pyStripL text.toList)) = true
      then "failed"
      else if (hasSub "success".toList (pyLowerL (pyStripL text.toList))
            || hasSub "succeeded".toList (pyLowerL (pyStripL text.toList))) = true
      then "success" else "unknown" := rfl

/-! ## Claim theorems -/

/-- C10: for every input text whose lower-cased form contains the substring
`"failed"` anywhere — also when the text contains `"success"`/`"succeeded"` —
both `parse_slack_text` variants classify the status as failed: the
failure-keyword substring check over the whole message takes precedence
over the success-keyword check. -/
theorem claim_C10_failed_precedence (text : String)
    (h : hasSub "failed".toList (pyLowerL text.toList) = true) :
    (Utils.parse_slack_text text).status = some "failed" ∧
      (ParseEvent.parse_slack_text text).status = "failed" := by
  have key : hasSub "failed".toList (pyLowerL (pyStripL text.toList)) = true := by
    rw [pyLowerL_pyStripL]
    exact hasSub_pyStripL _ _ (by decide) (by decide) h
  constructor
  · rw [utils_status_eq, if_pos key]
  · rw [parseev_status_eq, if_pos key]

/-- C10 witness: a text containing both `"failed"` and `"succeeded"` is
classified as failed by both variants. -/
theorem claim_C10_failed_precedence_witness :
    (Utils.parse_slack_text "Task A succeeded but DAG run FAILED").status
        = some "failed" ∧
      (ParseEvent.parse_slack_text "Task A succeeded but DAG run FAILED").status
        = "failed" :=
  claim_C10_failed_precedence "Task A succeeded but DAG run FAILED" (by decide)

/-- C5 counterexample: the claim says the extractor's status is always one of
`failed`/`succeeded`/`unknown` and is `unknown` when no keyword occurs.  On
`"hello"` the slack_handler/utils.py variant returns `None` (not
`"unknown"`), and on a succeeded-alert the parse_slack_event variant returns
the string `"success"`, not `"succeeded"`. -/
theorem claim_C5_counterexample :
    (Utils.parse_slack_text "hello").status = none ∧
      (Utils.parse_slack_text "hello").status ≠ some "unknown" ∧
      (Utils.parse_slack_text "hello").status ≠ some "failed" ∧
      (Utils.parse_slack_text "hello").status ≠ some "succeeded" ∧
      (ParseEvent.parse_slack_text "DAG run succeeded!").status = "success" ∧
      (ParseEvent.parse_slack_text "DAG run succeeded!").status ≠ "succeeded" := by
  decide

/-- C5 (amended): both extractor variants are total functions of the text and
classify into exactly three statuses — `failed` / `success` / a no-keyword
default — where the default is Python `None` for the slack_handler/utils.py
variant and the string `"unknown"` for the parse_slack_event variant; the
default is returned whenever neither a failure nor a success keyword occurs
anywhere in the lower-cased text. -/
theorem claim_C5_status_classification (text : String) :
    ((Utils.parse_slack_text text).status = some "failed" ∨
      (Utils.parse_slack_text text).status = some "success" ∨
      (Utils.parse_slack_text text).status = none) ∧
    ((ParseEvent.parse_slack_text text).status = "failed" ∨
      (ParseEvent.parse_slack_text text).status = "success" ∨
      (ParseEvent.parse_slack_text text).status = "unknown") ∧
    (hasSub "failed".toList (pyLowerL text.toList) = false →
      hasSub "success".toList (pyLowerL text.toList) = false →
      hasSub "succeeded".toList (pyLowerL text.toList) = false →
      (Utils.parse_slack_text text).status = none ∧
        (ParseEvent.parse_slack_text text).status = "unknown") := by
  refine ⟨?_, ?_, ?_⟩
  · by_cases h1 : hasSub "failed".toList (pyLowerL (pyStripL text.toList)) = true
    · exact Or.inl (by rw [utils_status_eq, if_pos h1])
    · by_cases h2 : (hasSub "success".toList (pyLowerL (pyStripL text.toList)) ||
          hasSub "succeeded".toList (pyLowerL (pyStripL text.toList))) = true
      · exact Or.inr (Or.inl (by rw [utils_status_eq, if_neg h1, if_pos h2]))
      · exact Or.inr (Or.inr (by rw [utils_status_eq, if_neg h1, if_neg h2]))
  · by_cases h1 : hasSub "failed".toList (pyLowerL (pyStripL text.toList)) = true
    · exact Or.inl (by rw [parseev_status_eq, if_pos h1])
    · by_cases h2 : (hasSub "success".toList (pyLowerL (pyStripL text.toList)) ||
          hasSub "succeeded".toList (pyLowerL (pyStripL text.toList))) = true
      · exact Or.inr (Or.inl (by rw [parseev_status_eq, if_neg h1, if_pos h2]))
      · exact Or.inr (Or.inr (by rw [parseev_status_eq, if_neg h1, if_neg h2]))
  · intro hf hs hsd
    have lift : ∀ w : List Char,
        hasSub w (pyLowerL text.toList) = false →
        hasSub w (pyLowerL (pyStripL text.toList)) = false := by
      intro w hw
      rw [pyLowerL_pyStripL]
      cases h : hasSub w (pyStripL (pyLowerL text.toList)) with
      | false => rfl
      | true =>
        exact absurd (hasSub_of_pyStripL w _ h)
          (by rw [hw]; exact Bool.false_ne_true)
    have hf' := lift _ hf
    have hs' := lift _ hs
    have hsd' := lift _ hsd
    have nh1 : ¬ hasSub "failed".toList (pyLowerL (pyStripL text.toList)) = true := by
      rw [hf']; exact Bool.false_ne_true
    have nh2 : ¬ (hasSub "success".toList (pyLowerL (pyStripL text.toList)) ||
        hasSub "succeeded".toList (pyLowerL (pyStripL text.toList))) = true := by
      rw [hs', hsd']; decide
    constructor
    · rw [utils_status_eq, if_neg nh1, if_neg nh2]
    · rw [parseev_status_eq, if_neg nh1, if_neg nh2]

/-- C5 witness: on `"hello"` (no keyword) the defaults are `None` and
`"unknown"` respectively. -/
theorem claim_C5_status_classification_witness :
    (Utils.parse_slack_text "hello").status = none ∧
      (ParseEvent.parse_slack_text "hello").status = "unknown" :=
  (claim_C5_status_classification "hello").2.2 (by decide) (by decide) (by decide)

/-- C6: dispatching any action name absent from the registry returns the same
result as dispatching `answer` with the same argument — the pass-through of
the original argument — for both dispatcher variants
(src/agent_handler/agent.py and src/agent.py). -/
theorem claim_C6_dispatch_fallback (cap6 : AgentHandler.Capabilities)
    (cap3 : AgentSimple.Capabilities) (name arg : String)
    (h6 : name ∉ ["fetch_dag_details", "fetch_logs", "analyze_logs", "answer",
      "send_to_slack", "save_dag_details"])
    (h3 : name ∉ ["list_dags", "fetch_logs", "answer"]) :
    AgentHandler.dispatch_action cap6 (some name) (some arg) =
        AgentHandler.dispatch_action cap6 (some "answer") (some arg) ∧
      AgentSimple.dispatch_action cap3 (some name) (some arg) =
        AgentSimple.dispatch_action cap3 (some "answer") (some arg) := by
  simp only [List.mem_cons, List.mem_singleton, not_or] at h6 h3
  constructor
  · simp [AgentHandler.dispatch_action, h6.1, h6.2.1, h6.2.2.1, h6.2.2.2.1,
      h6.2.2.2.2.1, h6.2.2.2.2.2]
  · simp [AgentSimple.dispatch_action, h3.1, h3.2.1, h3.2.2]

/-- C6 witness: the unregistered name `"frobnicate"` dispatches exactly like
`"answer"` in both registries. -/
theorem claim_C6_dispatch_fallback_witness :
    AgentHandler.dispatch_action capSix (some "frobnicate") (some "xyz") =
        AgentHandler.dispatch_action capSix (some "answer") (some "xyz") ∧
      AgentSimple.dispatch_action capThree (some "frobnicate") (some "xyz") =
        AgentSimple.dispatch_action capThree (some "answer") (some "xyz") :=
  claim_C6_dispatch_fallback capSix capThree "frobnicate" "xyz"
    (by decide) (by decide)

/-- C8: the audit-log append contract — a missing or unparsable store loads
as the empty sequence without raising; `appendRecord` inserts the new record
at index 0 and persists the whole sequence back; a failed write leaves the
store untouched and raises nothing to the caller (the source catches all
exceptions in `load_existing_events` and `save_as_json`). -/
theorem claim_C8_append_contract (α : Type) (record : α) (fs : FileState α) :
    (fs = none ∨ fs = some none → Utils.load_existing_events fs = []) ∧
      Utils.load_existing_events (Utils.appendRecord true record fs) =
        record :: Utils.load_existing_events fs ∧
      Utils.appendRecord false record fs = fs := by
  refine ⟨?_, rfl, rfl⟩
  rintro (rfl | rfl) <;> rfl

/-- C1: the claim says a failed Incident always yields a WorkflowRun that
reaches Done and is persisted even when every capability call fails.  In the
code, however, when the first (fetch-details) agent call raises, the
`except` block never assigns `dag_details`, so building the workflow record
raises `UnboundLocalError`: the handler itself fails (HTTP 500) and nothing
is persisted to the workflow-outcome log — the event-audit entry written
beforehand is the only trace.  This theorem evaluates the handler at that
failing input. -/
theorem claim_C1_step_failure_crash :
    (Events.handle_slack_event failAgent ctx0 failedText emptyState).1 =
        Events.HandlerOutcome.pyError "UnboundLocalError: dag_details" ∧
      (Events.handle_slack_event failAgent ctx0 failedText emptyState).2.agentFile
          = none ∧
      Utils.load_existing_events
          (Events.handle_slack_event failAgent ctx0 failedText emptyState).2.slackFile
        = [Events.mkMessage ctx0 (Utils.parse_slack_text failedText)] := by
  decide

/-- When only the later steps fail, the slip does not bite: the run is
persisted with error text recorded for the failed steps. -/
example :
    (Events.handle_slack_event failAfterDetails ctx0 failedText emptyState).1 =
      Events.HandlerOutcome.triggered "Fetched logs and analysis for my_pipeline"
        "details" "Error fetching logs: boom" "Error analyzing logs: boom"
        "Error sending message to Slack: boom" := by
  decide

/-- C2 counterexample: the claim promises N event-audit entries for N
submissions (duplicates included).  Submitting the end-to-end alert twice
from a fresh state leaves one audit entry, not two (the duplicate branch
returns before the audit write); the WorkflowRun count is one as claimed. -/
theorem claim_C2_counterexample :
    (Utils.load_existing_events
        (Events.runAll okAgent failedText [ctx0, ctx1] emptyState).slackFile).length
      = 1 ∧
    (Utils.load_existing_events
        (Events.runAll okAgent failedText [ctx0, ctx1] emptyState).slackFile).length
      ≠ 2 ∧
    (Utils.load_existing_events
        (Events.runAll okAgent failedText [ctx0, ctx1] emptyState).agentFile).length
      = 1 := by
  decide

/-- C2 (amended): for a failed Incident with both key fields present whose
key is not yet in the store, and whose fetch-details call returns, submitting
the event N ≥ 1 times yields exactly one WorkflowRun and exactly one
event-audit entry — the duplicate submissions are rejected before being
recorded, so the audit log grows by one, not by N. -/
theorem claim_C2_idempotence (agent : String → Except String String)
    (ctx : Events.RequestCtx) (cs : List Events.RequestCtx) (text : String)
    (st : Events.ServerState)
    (hd : truthy (Utils.parse_slack_text text).dag_name = true)
    (hr : truthy (Utils.parse_slack_text text).run_date = true)
    (hfail : (Utils.parse_slack_text text).status = some "failed")
    (hnomem : (Utils.load_existing_events st.slackFile).any
      (Events.sameKey (Utils.parse_slack_text text)) = false)
    (d : String)
    (hok : agent (Events.promptDetails
      ((Utils.parse_slack_text text).dag_name.getD "")) = Except.ok d) :
    (Utils.load_existing_events
        (Events.runAll agent text (ctx :: cs) st).slackFile).length
      = (Utils.load_existing_events st.slackFile).length + 1 ∧
    (Utils.load_existing_events
        (Events.runAll agent text (ctx :: cs) st).agentFile).length
      = (Utils.load_existing_events st.agentFile).length + 1 := by
  obtain ⟨r, hst⟩ := handle_slack_event_first agent ctx text st hd hfail hnomem d hok
  have hstep : Events.runAll agent text (ctx :: cs) st
      = Events.runAll agent text cs (Events.handle_slack_event agent ctx text st).2 :=
    rfl
  rw [hstep, hst]
  rw [runAll_fixed agent text cs _ hd hr (by
    simp [Utils.load_existing_events, Utils.js_load, sameKey_mkMessage])]
  simp [Utils.load_existing_events, Utils.js_load]

/-- C2 witness: two submissions of the end-to-end alert from the fresh state
yield one audit entry and one workflow record. -/
theorem claim_C2_idempotence_witness :
    (Utils.load_existing_events
        (Events.runAll okAgent failedText (ctx0 :: [ctx1]) emptyState).slackFile).length
      = (Utils.load_existing_events emptyState.slackFile).length + 1 ∧
    (Utils.load_existing_events
        (Events.runAll okAgent failedText (ctx0 :: [ctx1]) emptyState).agentFile).length
      = (Utils.load_existing_events emptyState.agentFile).length + 1 :=
  claim_C2_idempotence okAgent ctx0 [ctx1] failedText emptyState
    (by decide) (by decide) (by decide) (by decide) "ok-result" rfl

/-- C3: for a realistic clock (`now ≥ 300` seconds after the epoch, so the
timestamps inside the replay window are nonnegative and Python `int()`
truncation equals floor), the verifier accepts exactly when both headers are
present, the timestamp parses, `|now − timestamp| ≤ 300`, and the supplied
signature equals `"v0=" + hex(HMAC-SHA256(secret, "v0:" + floor(ts) + ":" +
body))`; in particular a correct signature 301 seconds old is rejected and
one 299 seconds old is accepted. -/
theorem claim_C3_signature_iff (parseFloat : String → Option ℚ)
    (hmacHex : String → String → String) (secret : String) (now : ℚ)
    (headers : App.SlackHeaders) (body : String) (hnow : 300 ≤ now) :
    App.verify_slack_signature parseFloat hmacHex secret now headers body = true ↔
      ∃ sig tsStr t,
        headers.signature = some sig ∧ headers.timestamp = some tsStr ∧
        parseFloat tsStr = some t ∧ |now - t| ≤ 300 ∧
        sig = "v0=" ++ hmacHex secret ("v0:" ++ toString ⌊t⌋ ++ ":" ++ body) := by
  obtain ⟨sigO, tsO⟩ := headers
  cases sigO with
  | none => simp [App.verify_slack_signature]
  | some sig =>
    cases tsO with
    | none => simp [App.verify_slack_signature]
    | some tsStr =>
      simp only [App.verify_slack_signature]
      cases hp : parseFloat tsStr with
      | none => simp [hp]
      | some t =>
        show (if |now - t| > 60 * 5 then false
          else ("v0=" ++ hmacHex secret
            ("v0:" ++ toString (App.pyInt t) ++ ":" ++ body) == sig)) = true ↔ _
        by_cases habs : |now - t| > 60 * 5
        · rw [if_pos habs]
          norm_num at habs
          simp only [Bool.false_eq_true, false_iff]
          rintro ⟨sig', tsStr', t', h1, h2, h3, h4, h5⟩
          cases Option.some.inj h2
          rw [hp] at h3
          cases Option.some.inj h3
          linarith
        · rw [if_neg habs]
          norm_num at habs
          have ht0 : (0 : ℚ) ≤ t := by
            have h1 := abs_le.1 habs
            linarith [h1.2]
          have hfloor : App.pyInt t = ⌊t⌋ := by
            unfold App.pyInt
            rw [if_pos ht0]
          rw [hfloor, beq_iff_eq]
          constructor
          · intro h
            exact ⟨sig, tsStr, t, rfl, rfl, hp, habs, h.symm⟩
          · rintro ⟨sig', tsStr', t', h1, h2, h3, h4, h5⟩
            cases Option.some.inj h1
            cases Option.some.inj h2
            rw [hp] at h3
            cases Option.some.inj h3
            exact h5.symm

/-- C3 witness: a request whose timestamp equals the current clock and whose
signature matches the computed HMAC is accepted. -/
theorem claim_C3_signature_iff_witness :
    App.verify_slack_signature parseFloat400 hmacConst "sec" 400
      { signature := some "v0=deadbeef", timestamp := some "400" } "body" = true :=
  (claim_C3_signature_iff parseFloat400 hmacConst "sec" 400
      { signature := some "v0=deadbeef", timestamp := some "400" } "body"
      (by norm_num)).mpr
    ⟨"v0=deadbeef", "400", 400, rfl, rfl, by decide, by norm_num, rfl⟩

/-- C4: an Incident missing its workflow name or its run date is never
classified as a duplicate — the gate always lets it through and the event is
appended to the audit log — because dedup is attempted only when both
fields are truthy. -/
theorem claim_C4_partial_key_never_dedup (agent : String → Except String String)
    (ctx : Events.RequestCtx) (text : String) (st : Events.ServerState)
    (h : (Utils.parse_slack_text text).dag_name = none ∨
      (Utils.parse_slack_text text).run_date = none) :
    Events.isDupOutcome (Events.handle_slack_event agent ctx text st).1 = false ∧
      Utils.load_existing_events
          (Events.handle_slack_event agent ctx text st).2.slackFile
        = Events.mkMessage ctx (Utils.parse_slack_text text)
            :: Utils.load_existing_events st.slackFile := by
  have hcond : (truthy (Utils.parse_slack_text text).dag_name &&
      truthy (Utils.parse_slack_text text).run_date &&
      (Utils.load_existing_events st.slackFile).any
        (Events.sameKey (Utils.parse_slack_text text))) = false := by
    rcases h with h | h <;> rw [h] <;> simp [truthy]
  obtain ⟨h1, h2⟩ := handle_slack_event_not_dup_state agent ctx text st hcond
  exact ⟨h2, h1⟩

/-- C4 witness: the date-less failure alert, submitted a second time after it
is already in the store, is still processed and appended, not deduplicated. -/
theorem claim_C4_partial_key_never_dedup_witness :
    Events.isDupOutcome
        (Events.handle_slack_event okAgent ctx1 noDateText st1C4).1 = false ∧
      Utils.load_existing_events
          (Events.handle_slack_event okAgent ctx1 noDateText st1C4).2.slackFile
        = Events.mkMessage ctx1 (Utils.parse_slack_text noDateText)
            :: Utils.load_existing_events st1C4.slackFile :=
  claim_C4_partial_key_never_dedup okAgent ctx1 noDateText st1C4 (Or.inr (by decide))

/-- C7 counterexample: the duplicate response's message in the code is
`"Duplicate event.  No action taken."` — with two spaces — so the claimed
exact body `{"status":"ok","message":"Duplicate event. No action taken."}`
(single space) is not what the handler returns. -/
theorem claim_C7_counterexample :
    (Events.handle_slack_event okAgent ctx1 failedText
        (Events.handle_slack_event okAgent ctx0 failedText emptyState).2).1
      = Events.HandlerOutcome.dup "ok" "Duplicate event.  No action taken." ∧
    (Events.handle_slack_event okAgent ctx1 failedText
        (Events.handle_slack_event okAgent ctx0 failedText emptyState).2).1
      ≠ Events.HandlerOutcome.dup "ok" "Duplicate event. No action taken." := by
  decide

/-- C7 (amended): submitting the same message text (with both key fields
extractable) twice in direct succession makes the second submission a
duplicate: the response is HTTP 200 with body
`{"status":"ok","message":"Duplicate event.  No action taken."}` (two spaces
after the period, as in the source), and the state — hence the
workflow-outcome log — is unchanged by the second submission. -/
theorem claim_C7_duplicate_second_submission
    (agent : String → Except String String) (ctx ctx' : Events.RequestCtx)
    (text : String) (st : Events.ServerState)
    (hd : truthy (Utils.parse_slack_text text).dag_name = true)
    (hr : truthy (Utils.parse_slack_text text).run_date = true)
    (hnomem : (Utils.load_existing_events st.slackFile).any
      (Events.sameKey (Utils.parse_slack_text text)) = false) :
    (Events.handle_slack_event agent ctx' text
        (Events.handle_slack_event agent ctx text st).2).1
      = Events.HandlerOutcome.dup "ok" "Duplicate event.  No action taken." ∧
    (Events.handle_slack_event agent ctx' text
        (Events.handle_slack_event agent ctx text st).2).2
      = (Events.handle_slack_event agent ctx text st).2 := by
  have hcond : (truthy (Utils.parse_slack_text text).dag_name &&
      truthy (Utils.parse_slack_text text).run_date &&
      (Utils.load_existing_events st.slackFile).any
        (Events.sameKey (Utils.parse_slack_text text))) = false := by
    rw [hnomem]
    simp
  obtain ⟨h1, _⟩ := handle_slack_event_not_dup_state agent ctx text st hcond
  have hmem : (Utils.load_existing_events
      (Events.handle_slack_event agent ctx text st).2.slackFile).any
      (Events.sameKey (Utils.parse_slack_text text)) = true := by
    rw [h1]
    simp [sameKey_mkMessage]
  have hdup := handle_slack_event_dup agent ctx' text
    (Events.handle_slack_event agent ctx text st).2 hd hr hmem
  rw [hdup]
  exact ⟨rfl, rfl⟩

/-- C7 witness: the end-to-end alert submitted twice from the fresh state. -/
theorem claim_C7_duplicate_second_submission_witness :
    (Events.handle_slack_event okAgent ctx1 failedText
        (Events.handle_slack_event okAgent ctx0 failedText emptyState).2).1
      = Events.HandlerOutcome.dup "ok" "Duplicate event.  No action taken." ∧
    (Events.handle_slack_event okAgent ctx1 failedText
        (Events.handle_slack_event okAgent ctx0 failedText emptyState).2).2
      = (Events.handle_slack_event okAgent ctx0 failedText emptyState).2 :=
  claim_C7_duplicate_second_submission okAgent ctx0 ctx1 failedText emptyState
    (by decide) (by decide) (by decide)

/-- C9 counterexample: the check-and-mark is a read followed by a separate
write, not an atomic test-and-set — under the interleaving
read-A, read-B, write-A, write-B, two concurrent deliveries of the same
(workflow name, run date) key BOTH pass the gate and trigger processing. -/
theorem claim_C9_counterexample :
    (Race.run raceMdA raceMdB [false, true, false, true]
        { store := [], pcA := 0, pcB := 0 }).pcA = 2 ∧
    (Race.run raceMdA raceMdB [false, true, false, true]
        { store := [], pcA := 0, pcB := 0 }).pcB = 2 := by
  decide

/-- C9 (amended): the gate is a separate read and write (no atomic
test-and-set), so mutual exclusion holds only when the two deliveries are
serialized — one delivery's read and write both complete before the other's
read (as happens on a single-threaded event loop, where the section has no
suspension point): then exactly one of the two passes the gate. -/
theorem claim_C9_serialized_gate (mdA mdB : Events.MessageData)
    (store : List Events.MessageData)
    (hk1 : mdB.text_details.dag_name = mdA.text_details.dag_name)
    (hk2 : mdB.text_details.run_date = mdA.text_details.run_date)
    (ht1 : truthy mdA.text_details.dag_name = true)
    (ht2 : truthy mdA.text_details.run_date = true)
    (hno : Race.dupCheck mdA store = false) :
    (Race.run mdA mdB [false, false, true, true]
        { store := store, pcA := 0, pcB := 0 }).pcA = 2 ∧
    (Race.run mdA mdB [false, false, true, true]
        { store := store, pcA := 0, pcB := 0 }).pcB = 3 := by
  have s1 : Race.step mdA mdB { store := store, pcA := 0, pcB := 0 } false
      = { store := store, pcA := 1, pcB := 0 } := by
    simp [Race.step, hno]
  have s2 : Race.step mdA mdB { store := store, pcA := 1, pcB := 0 } false
      = { store := mdA :: store, pcA := 2, pcB := 0 } := by
    simp [Race.step]
  have hdupB : Race.dupCheck mdB (mdA :: store) = true := by
    simp [Race.dupCheck, Events.sameKey, hk1, hk2, ht1, ht2]
  have s3 : Race.step mdA mdB { store := mdA :: store, pcA := 2, pcB := 0 } true
      = { store := mdA :: store, pcA := 2, pcB := 3 } := by
    simp [Race.step, hdupB]
  have s4 : Race.step mdA mdB { store := mdA :: store, pcA := 2, pcB := 3 } true
      = { store := mdA :: store, pcA := 2, pcB := 3 } := by
    simp [Race.step]
  have hrun : Race.run mdA mdB [false, false, true, true]
      { store := store, pcA := 0, pcB := 0 }
      = { store := mdA :: store, pcA := 2, pcB := 3 } := by
    simp only [Race.run]
    rw [s1, s2, s3, s4]
  rw [hrun]
  exact ⟨rfl, rfl⟩

/-- C9 witness: two serialized deliveries of the end-to-end alert — the
first passes, the second is stopped as a duplicate. -/
theorem claim_C9_serialized_gate_witness :
    (Race.run raceMdA raceMdB [false, false, true, true]
        { store := [], pcA := 0, pcB := 0 }).pcA = 2 ∧
    (Race.run raceMdA raceMdB [false, false, true, true]
        { store := [], pcA := 0, pcB := 0 }).pcB = 3 :=
  claim_C9_serialized_gate raceMdA raceMdB []
    (by decide) (by decide) (by decide) (by decide) (by decide)

/-- C8 witness: appending to a missing store and to an unparsable store. -/
theorem claim_C8_append_contract_witness :
    Utils.load_existing_events (none : FileState String) = [] ∧
      Utils.load_existing_events (some none : FileState String) = [] ∧
      Utils.load_existing_events
        (Utils.appendRecord true "r" (none : FileState String)) = ["r"] ∧
      Utils.appendRecord false "r" (some none : FileState String) = some none :=
  ⟨(claim_C8_append_contract String "r" none).1 (Or.inl rfl),
    (claim_C8_append_contract String "r" (some none)).1 (Or.inr rfl),
    (claim_C8_append_contract String "r" none).2.1,
    (claim_C8_append_contract String "r" (some none)).2.2⟩
